import Mathlib

/-
Verification of the Tour Assistant program (src/tour_assistant.py): a shallow
embedding of its weather-window tool, tool dispatcher and conversation loop,
together with theorems settling the specification's claims about them.

Conventions of the embedding:
  * JSON-decoded Python values are modelled by the inductive type Json.
    Numbers are modelled as integers; no claim computes with fractional values.
  * Python exceptions that the program does not catch (KeyError, TypeError,
    AttributeError, IndexError) are modelled by Except PyErr: an Except.error
    result means the Python code raises to its caller.
  * The two Open-Meteo HTTP calls (requests.get + raise_for_status + .json())
    are modelled as a black-box outcome FetchOutcome: either a
    requests.RequestException carrying its rendered message (the only class the
    code catches), or a successfully decoded JSON body.
  * json.loads of the tool-call argument string is likewise a black box:
    RawArgs is either a decode failure or a decoded Json value.
-/

/-- A JSON value as produced by decoding a provider response body. -/
inductive Json where
  | null
  | bool (b : Bool)
  | num (n : Int)
  | str (s : String)
  | arr (elems : List Json)
  | obj (fields : List (String × Json))

/-- An uncaught Python exception class. -/
inductive PyErr where
  | attributeError
  | keyError
  | typeError
  | indexError
deriving DecidableEq, Repr

/-- Python truthiness of a JSON-decoded value, as used by if-tests and `not`. -/
def truthy : Json → Bool
  | .null => false
  | .bool b => b
  | .num n => n != 0
  | .str s => s != ""
  | .arr xs => !xs.isEmpty
  | .obj fs => !fs.isEmpty

/-- Python `d.get(key, dflt)`: on a dict returns the value or the default;
on any non-dict JSON value it raises AttributeError. -/
def Json.get (j : Json) (key : String) (dflt : Json) : Except PyErr Json :=
  match j with
  | .obj fs => .ok ((fs.lookup key).getD dflt)
  | _ => .error .attributeError

/-- Python `x[key]` with a string key: KeyError on a dict missing the key,
TypeError on any non-dict value. -/
def Json.getItemS (j : Json) (key : String) : Except PyErr Json :=
  match j with
  | .obj fs =>
    match fs.lookup key with
    | some v => .ok v
    | none => .error .keyError
  | _ => .error .typeError

/-- Python `x[i]` with a non-negative integer index. -/
def Json.getIdx (j : Json) (i : Nat) : Except PyErr Json :=
  match j with
  | .arr xs =>
    match xs[i]? with
    | some v => .ok v
    | none => .error .indexError
  | .str s =>
    match s.toList[i]? with
    | some c => .ok (.str (String.mk [c]))
    | none => .error .indexError
  | .obj _ => .error .keyError
  | _ => .error .typeError

/-- Python `len(x)`: defined on lists, strings and dicts, TypeError otherwise. -/
def pyLen (j : Json) : Except PyErr Nat :=
  match j with
  | .arr xs => .ok xs.length
  | .str s => .ok s.length
  | .obj fs => .ok fs.length
  | _ => .error .typeError

/-- Outcome of one `requests.get(...)`, `raise_for_status()`, `.json()`
sequence against a provider: either a requests.RequestException (the one
class the source catches), rendered to its message string, or a decoded
JSON body. -/
inductive FetchOutcome where
  | exc (msg : String)
  | ok (body : Json)

/-- The clamp on line 39 of the source, `max(1, min(hours, 24))`, for an
integer-valued hours argument. -/
def clampI (h : Int) : Int := max 1 (min h 24)

/-- Python `max(1, min(hours, 24))` on a dynamically typed hours value:
ints and bools (bools compare as 0/1) succeed, everything else raises
TypeError inside min. -/
def clampHours : Json → Except PyErr Int
  | .num n => .ok (clampI n)
  | .bool b => .ok (clampI (if b then 1 else 0))
  | _ => .error .typeError

/-- The clamped integer produced from an int-like hours value. -/
def clampOf (j : Json) : Int :=
  match j with
  | .num n => clampI n
  | .bool b => clampI (if b then 1 else 0)
  | _ => 1

/-- One sample dict built on lines 79-85 of the source. -/
def mkSample (t temp p : Json) : Json :=
  .obj [("time", t), ("temperature_c", temp), ("precipitation_probability", p)]

/-- Body of the sample loop (lines 78-85): evaluation order is
`times[idx]`, `len(temps)`, possibly `temps[idx]`, `len(precip)`,
possibly `precip[idx]`. -/
def buildSample (times temps precip : Json) (idx : Nat) : Except PyErr Json :=
  match times.getIdx idx with
  | .error e => .error e
  | .ok t =>
    match pyLen temps with
    | .error e => .error e
    | .ok tl =>
      match (if idx < tl then temps.getIdx idx else .ok .null) with
      | .error e => .error e
      | .ok tempv =>
        match pyLen precip with
        | .error e => .error e
        | .ok pl =>
          match (if idx < pl then precip.getIdx idx else .ok .null) with
          | .error e => .error e
          | .ok pv => .ok (mkSample t tempv pv)

/-- The sample-accumulation loop of lines 77-85, over a list of indices. -/
def buildSamples (times temps precip : Json) : List Nat → Except PyErr (List Json)
  | [] => .ok []
  | i :: rest =>
    match buildSample times temps precip i with
    | .error e => .error e
    | .ok s =>
      match buildSamples times temps precip rest with
      | .error e => .error e
      | .ok tail => .ok (s :: tail)

/-- Lines 40-92 of fetch_weather_window, after the hours clamp: geocode,
forecast, window.  `city` is kept as a dynamic value because the kwargs
spread in the dispatcher can pass any JSON value for it. -/
def fetchClamped (city : Json) (hoursI : Int) (geo fc : FetchOutcome) :
    Except PyErr Json :=
  match geo with
  | .exc msg =>
    .ok (.obj [("city", city), ("error", .str ("Geocoding failed: " ++ msg))])
  | .ok geoJson =>
    match geoJson.get "results" .null with
    | .error e => .error e
    | .ok results =>
      if truthy results then
        match geoJson.getItemS "results" with
        | .error e => .error e
        | .ok resultsV =>
          match resultsV.getIdx 0 with
          | .error e => .error e
          | .ok best =>
            match best.getItemS "latitude" with
            | .error e => .error e
            | .ok latitude =>
              match best.getItemS "longitude" with
              | .error e => .error e
              | .ok longitude =>
                match fc with
                | .exc msg =>
                  .ok (.obj [("city", city),
                             ("error", .str ("Forecast fetch failed: " ++ msg))])
                | .ok data =>
                  match data.get "hourly" (.obj []) with
                  | .error e => .error e
                  | .ok hourly =>
                    match hourly.get "time" (.arr []) with
                    | .error e => .error e
                    | .ok times =>
                      match hourly.get "temperature_2m" (.arr []) with
                      | .error e => .error e
                      | .ok temps =>
                        match hourly.get "precipitation_probability" (.arr []) with
                        | .error e => .error e
                        | .ok precip =>
                          match pyLen times with
                          | .error e => .error e
                          | .ok timesLen =>
                            match buildSamples times temps precip
                                (List.range (min hoursI.toNat timesLen)) with
                            | .error e => .error e
                            | .ok samples =>
                              .ok (.obj [("city", city),
                                         ("latitude", latitude),
                                         ("longitude", longitude),
                                         ("window_hours", .num samples.length),
                                         ("samples", .arr samples)])
      else
        .ok (.obj [("city", city), ("error", .str "No geocoding match")])

/-- fetch_weather_window (lines 38-92): clamp the hours argument, then run
the geocode/forecast/window pipeline.  An Except.error result models an
uncaught Python exception escaping to the caller. -/
def fetch_weather_window (city hours : Json) (geo fc : FetchOutcome) :
    Except PyErr Json :=
  match clampHours hours with
  | .error e => .error e
  | .ok h => fetchClamped city h geo fc

/-- Outcome of `json.loads` on the serialized tool-call arguments string:
either a JSONDecodeError or a decoded JSON value. -/
inductive RawArgs where
  | invalid (raw : String)
  | valid (value : Json)

/-- parse_arguments (lines 119-123): decode the raw argument string, falling
back to an empty dict when decoding fails. -/
def parse_arguments : RawArgs → Json
  | .invalid _ => .obj []
  | .valid v => v

/-- One tool-invocation request as read off the model reply:
tool_call.id, tool_call.function.name, tool_call.function.arguments. -/
structure ToolCall where
  id : String
  name : String
  arguments : RawArgs

/-- The kwargs spread `fetch_weather_window(**args)` on line 130: TypeError
when args is not a mapping, contains a key other than the declared
city/hours parameters, or omits the required city; otherwise the call runs
with hours defaulting to 12. -/
def callFetchWeather (args : Json) (geo fc : FetchOutcome) : Except PyErr Json :=
  match args with
  | .obj fields =>
    if fields.all (fun kv => kv.1 == "city" || kv.1 == "hours") then
      match fields.lookup "city" with
      | some city =>
        fetch_weather_window city ((fields.lookup "hours").getD (.num 12)) geo fc
      | none => .error .typeError
    else .error .typeError
  | _ => .error .typeError

/-- handle_tool_call (lines 126-131). -/
def handle_tool_call (tc : ToolCall) (geo fc : FetchOutcome) : Except PyErr Json :=
  let args := parse_arguments tc.arguments
  if tc.name = "fetch_weather_window" then callFetchWeather args geo fc
  else .ok (.obj [("error", .str ("Unknown tool " ++ tc.name))])

/-- The per-part filter of extract_text (lines 139-141): a dict part tagged
type == "text" contributes its "text" value (defaulting to ""). -/
def partText (part : Json) : Option Json :=
  match part with
  | .obj fields =>
    match fields.lookup "type" with
    | some (.str tag) =>
      if tag = "text" then some ((fields.lookup "text").getD (.str "")) else none
    | _ => none
  | _ => none

/-- Python str.join over collected chunks: TypeError if any chunk is not a
string. -/
def joinStrChunks : List Json → Except PyErr String
  | [] => .ok ""
  | c :: rest =>
    match c with
    | .str s =>
      match joinStrChunks rest with
      | .error e => .error e
      | .ok tail => .ok (s ++ tail)
    | _ => .error .typeError

/-- extract_text (lines 134-143). -/
def extract_text (payload : Json) : Except PyErr String :=
  match payload with
  | .str s => .ok s
  | .arr parts => joinStrChunks (parts.filterMap partText)
  | _ => .ok ""

/-- Python str.strip(): drop whitespace from both ends (the ASCII whitespace
characters suffice for every claim). -/
def pyStrip (s : String) : String :=
  String.mk (((s.toList.dropWhile Char.isWhitespace).reverse.dropWhile
    Char.isWhitespace).reverse)

/-- Python str.lower() (ASCII case mapping suffices for every claim). -/
def pyLower (s : String) : String := String.mk (s.toList.map Char.toLower)

/-- The divider line of print_response: sixty dashes. -/
def divider : String := String.mk (List.replicate 60 '-')

/-- The fixed placeholder substituted for an empty narrative (line 220). -/
def placeholderText : String := "Assistant returned no narrative."

/-- Python `a or b` on strings: b when a is empty, a otherwise. -/
def pyOrStr (a b : String) : String := if a = "" then b else a

/-- The three lines printed by print_response (lines 146-150). -/
def print_response_lines (text : String) : List String :=
  [divider, pyStrip text, divider]

/-- One transcript entry, mirroring the message dicts appended in run_cli. -/
inductive Msg where
  | system (content : String)
  | user (content : String)
  | assistant (content : String)
  | assistantToolCalls (content : Json) (tool_calls : List ToolCall)
  | tool (tool_call_id : String) (content : String)

/-- JSON escaping for a character, as json.dumps renders strings. -/
def escapeChar (c : Char) : String :=
  if c = '\\' then "\\\\"
  else if c = '"' then "\\\""
  else if c = '\n' then "\\n"
  else String.mk [c]

/-- JSON escaping of a string body. -/
def escapeStr (s : String) : String := String.join (s.toList.map escapeChar)

/-- A JSON-quoted string. -/
def quoteStr (s : String) : String := "\"" ++ escapeStr s ++ "\""

mutual

/-- json.dumps on a decoded value, with Python's default separators. -/
def dumps : Json → String
  | .null => "null"
  | .bool b => if b then "true" else "false"
  | .num n => toString n
  | .str s => quoteStr s
  | .arr xs => "[" ++ dumpsArr xs ++ "]"
  | .obj fs => "\x7b" ++ dumpsObj fs ++ "\x7d"

/-- json.dumps of consecutive array elements. -/
def dumpsArr : List Json → String
  | [] => ""
  | [x] => dumps x
  | x :: y :: rest => dumps x ++ ", " ++ dumpsArr (y :: rest)

/-- json.dumps of consecutive object entries. -/
def dumpsObj : List (String × Json) → String
  | [] => ""
  | [(k, v)] => quoteStr k ++ ": " ++ dumps v
  | (k, v) :: p :: rest => quoteStr k ++ ": " ++ dumps v ++ ", " ++ dumpsObj (p :: rest)

end

/-- One model reply: optional textual content plus the (possibly empty)
list of tool-invocation requests. -/
structure Reply where
  content : Json
  tool_calls : List ToolCall

/-- How one user turn of the inner loop (lines 180-223) ends: a narrative was
printed, an uncaught exception escaped, or the scripted replies ran out while
the loop was still awaiting the model. -/
inductive TurnResult where
  | finished (printed : List String)
  | crashed (err : PyErr)
  | starved

/-- The payload of a successful dispatcher outcome. -/
def okJson : Except PyErr Json → Json
  | .ok r => r
  | .error _ => .null

/-- The tool-result message appended for one request (lines 208-216). -/
def toolMsgOf (geo fc : FetchOutcome) (tc : ToolCall) : Msg :=
  .tool tc.id (dumps (okJson (handle_tool_call tc geo fc)))

/-- The dispatch loop over a batch of requests (lines 208-216): one tool
message per answered request, stopping with the exception if a dispatch
raises (the messages already appended stay in the transcript). -/
def processCalls (geo fc : FetchOutcome) : List ToolCall → List Msg × Option PyErr
  | [] => ([], none)
  | tc :: rest =>
    match handle_tool_call tc geo fc with
    | .error e => ([], some e)
    | .ok r =>
      let step := processCalls geo fc rest
      (Msg.tool tc.id (dumps r) :: step.1, step.2)

/-- The inner while-loop of run_cli (lines 180-223) over a script of model
replies: a reply with requests appends the assistant message and the batch of
tool messages then loops; a plain reply prints the narrative (placeholder when
blank) and appends the extracted text. -/
def runReplies (geo fc : FetchOutcome) : List Msg → List Reply → List Msg × TurnResult
  | msgs, [] => (msgs, .starved)
  | msgs, reply :: rest =>
    if !reply.tool_calls.isEmpty then
      let msgs1 := msgs ++ [Msg.assistantToolCalls reply.content reply.tool_calls]
      let step := processCalls geo fc reply.tool_calls
      match step.2 with
      | some e => (msgs1 ++ step.1, .crashed e)
      | none => runReplies geo fc (msgs1 ++ step.1) rest
    else
      match extract_text reply.content with
      | .error e => (msgs, .crashed e)
      | .ok t =>
        let printable := pyOrStr (pyStrip t) placeholderText
        (msgs ++ [Msg.assistant t], .finished (print_response_lines printable))

/-- One chat turn (lines 178-223): append the user message, then run the
reply loop. -/
def processTurn (geo fc : FetchOutcome) (msgs : List Msg) (userText : String)
    (script : List Reply) : List Msg × TurnResult :=
  runReplies geo fc (msgs ++ [Msg.user userText]) script

/-- Scan of the transcript checking that every tool message answers a request
of the assistant message that opened its batch: pending holds the ids of the
requests issued by the most recent assistant tool-call message, with nothing
but tool messages after it. -/
def toolIdsOkFrom (pending : List String) : List Msg → Bool
  | [] => true
  | m :: rest =>
    match m with
    | .tool cid _ => decide (cid ∈ pending) && toolIdsOkFrom pending rest
    | .assistantToolCalls _ calls => toolIdsOkFrom (calls.map ToolCall.id) rest
    | _ => toolIdsOkFrom [] rest

/-- The transcript correlation invariant of the spec. -/
def toolIdsOk (msgs : List Msg) : Bool := toolIdsOkFrom [] msgs

/-- The pending-request ids left over after scanning a message list. -/
def pendingAfter (pending : List String) : List Msg → List String
  | [] => pending
  | m :: rest =>
    match m with
    | .tool _ _ => pendingAfter pending rest
    | .assistantToolCalls _ calls => pendingAfter (calls.map ToolCall.id) rest
    | _ => pendingAfter [] rest

/-- What the outer read loop (lines 159-178) does with one raw input line. -/
inductive InputAction where
  | ignore
  | exit
  | reset
  | chat (text : String)
deriving DecidableEq, Repr

/-- The input handling of run_cli: strip, skip empty lines, match the
case-insensitive commands, otherwise start a chat turn with the stripped
text. -/
def handleInputLine (raw : String) : InputAction :=
  let user_text := pyStrip raw
  if user_text = "" then .ignore
  else
    let lowered := pyLower user_text
    if lowered = "/exit" || lowered = "/quit" then .exit
    else if lowered = "/reset" then .reset
    else .chat user_text

/-- Structural well-formedness of an optional hourly series: absent or an
array. -/
def isArrOpt : Option Json → Bool
  | none => true
  | some (.arr _) => true
  | some _ => false

/-- Structural well-formedness of a decoded geocoding body: an object whose
results, when present and non-empty, start with an object carrying latitude
and longitude. -/
def wfGeoBody : Json → Bool
  | .obj fs =>
    match fs.lookup "results" with
    | none => true
    | some (.arr []) => true
    | some (.arr (first :: _)) =>
      match first with
      | .obj gs => (gs.lookup "latitude").isSome && (gs.lookup "longitude").isSome
      | _ => false
    | some _ => false
  | _ => false

/-- Well-formed geocoding provider behavior: any request failure, or a
structurally well-formed body. -/
def wfGeo : FetchOutcome → Bool
  | .exc _ => true
  | .ok body => wfGeoBody body

/-- Structural well-formedness of an optional hourly container: absent or an
object. -/
def isObjOpt : Option Json → Bool
  | none => true
  | some (.obj _) => true
  | some _ => false

/-- The field list of an optional JSON object, defaulting to empty (matching
the dict default of `data.get("hourly", {})`). -/
def objOf : Option Json → List (String × Json)
  | some (.obj fs) => fs
  | _ => []

/-- The element list of an optional JSON array, defaulting to empty (matching
the list defaults of the hourly series lookups). -/
def arrOf : Option Json → List Json
  | some (.arr l) => l
  | _ => []

/-- Structural well-formedness of a decoded forecast body: an object whose
hourly member, when present, is an object of optional parallel arrays. -/
def wfFcBody : Json → Bool
  | .obj fs =>
    isObjOpt (fs.lookup "hourly") &&
      (isArrOpt ((objOf (fs.lookup "hourly")).lookup "time") &&
        isArrOpt ((objOf (fs.lookup "hourly")).lookup "temperature_2m") &&
        isArrOpt ((objOf (fs.lookup "hourly")).lookup "precipitation_probability"))
  | _ => false

/-- Well-formed forecast provider behavior. -/
def wfFc : FetchOutcome → Bool
  | .exc _ => true
  | .ok body => wfFcBody body

/-- Whether a JSON value is accepted by the hours clamp (int or bool). -/
def intLike : Json → Bool
  | .num _ => true
  | .bool _ => true
  | _ => false

/-- Decoded tool arguments on which the kwargs call cannot raise: a mapping
with only the declared keys, the required city present, and an int-like
hours when present. -/
def wfArgs : Json → Bool
  | .obj fs =>
    fs.all (fun kv => kv.1 == "city" || kv.1 == "hours") &&
      ((fs.lookup "city").isSome &&
        (match fs.lookup "hours" with
         | none => true
         | some h => intLike h))
  | _ => false

/-- Element access on a decoded JSON array, with null for an absent index;
at in-range indices this is exactly the list element. -/
def jGet (l : List Json) (i : Nat) : Json :=
  match l[i]? with
  | some v => v
  | none => Json.null

/-- The window the sample loop produces from well-formed parallel arrays:
the first n timestamps zipped with the (null-padded) parallel series. -/
def windowSamples (ts temps precips : List Json) (n : Nat) : List Json :=
  (List.range n).map fun i => mkSample (jGet ts i) (jGet temps i) (jGet precips i)

/-- Field lookup on a JSON object result. -/
def getField (j : Json) (key : String) : Option Json :=
  match j with
  | .obj fs => fs.lookup key
  | _ => none

/-- The clamp is idempotent: re-clamping a clamped hours value changes
nothing. -/
theorem clampI_idem (h : Int) : clampI (clampI h) = clampI h := by
  unfold clampI
  omega

/-- Indexing a JSON array in range yields the list element. -/
theorem getIdx_arr (l : List Json) (i : Nat) (h : i < l.length) :
    Json.getIdx (.arr l) i = .ok (jGet l i) := by
  simp [Json.getIdx, jGet, List.getElem?_eq_getElem h]

/-- Out of range, jGet is the null padding value. -/
theorem jGet_default (l : List Json) (i : Nat) (h : l.length ≤ i) :
    jGet l i = .null := by
  simp [jGet, List.getElem?_eq_none h]

/-- In range, jGet is an element of the list. -/
theorem jGet_mem (l : List Json) (i : Nat) (h : i < l.length) :
    jGet l i ∈ l := by
  simp only [jGet, List.getElem?_eq_getElem h]
  exact List.getElem_mem h

/-- The guarded parallel-array access of the sample loop always produces the
null-padded element. -/
theorem padGet (l : List Json) (i : Nat) :
    (if i < l.length then Json.getIdx (.arr l) i else .ok .null)
      = Except.ok (jGet l i) := by
  split_ifs with h1
  · exact getIdx_arr l i h1
  · rw [jGet_default l i (Nat.le_of_not_lt h1)]

/-- One loop iteration over well-formed parallel arrays builds the expected
sample. -/
theorem buildSample_eq (ts tempsL precipL : List Json) (i : Nat)
    (hi : i < ts.length) :
    buildSample (.arr ts) (.arr tempsL) (.arr precipL) i
      = .ok (mkSample (jGet ts i) (jGet tempsL i) (jGet precipL i)) := by
  simp [buildSample, getIdx_arr ts i hi, pyLen, padGet]

/-- The sample loop over in-range indices builds the zipped samples. -/
theorem buildSamples_eq (ts tempsL precipL : List Json) (l : List Nat)
    (hl : ∀ i ∈ l, i < ts.length) :
    buildSamples (.arr ts) (.arr tempsL) (.arr precipL) l
      = .ok (l.map fun i => mkSample (jGet ts i) (jGet tempsL i) (jGet precipL i)) := by
  induction l with
  | nil => rfl
  | cons i l ih =>
    have hi := hl i (List.mem_cons_self i l)
    have hrest : ∀ j ∈ l, j < ts.length := fun j hj => hl j (List.mem_cons_of_mem _ hj)
    simp [buildSamples, buildSample_eq ts tempsL precipL i hi, ih hrest]

/-- Shape of a fully successful fetch_weather_window run: geocoding finds a
match carrying coordinates, the forecast decodes to parallel hourly arrays,
and the result is the windowed sample object. -/
theorem fetch_success_shape
    (city : Json) (h : Int)
    (gfs gs : List (String × Json)) (restM : List Json) (lat lon : Json)
    (hres : gfs.lookup "results" = some (.arr (Json.obj gs :: restM)))
    (hlat : gs.lookup "latitude" = some lat)
    (hlon : gs.lookup "longitude" = some lon)
    (dfs hs : List (String × Json)) (ts tempsL precipL : List Json)
    (hh : dfs.lookup "hourly" = some (.obj hs))
    (ht : hs.lookup "time" = some (.arr ts))
    (htemp : hs.lookup "temperature_2m" = some (.arr tempsL))
    (hprec : hs.lookup "precipitation_probability" = some (.arr precipL)) :
    fetch_weather_window city (.num h) (.ok (.obj gfs)) (.ok (.obj dfs))
      = .ok (.obj [("city", city), ("latitude", lat), ("longitude", lon),
          ("window_hours", .num (min (clampI h).toNat ts.length)),
          ("samples", .arr (windowSamples ts tempsL precipL
             (min (clampI h).toNat ts.length)))]) := by
  have hrange : ∀ i ∈ List.range (min (clampI h).toNat ts.length), i < ts.length := by
    intro i hi
    have := List.mem_range.mp hi
    omega
  simp [fetch_weather_window, clampHours, fetchClamped, Json.get, Json.getItemS,
    Json.getIdx, hres, hlat, hlon, hh, ht, htemp, hprec, truthy, pyLen,
    buildSamples_eq ts tempsL precipL _ hrange, windowSamples]

/-- The window always has exactly the requested number of entries. -/
theorem windowSamples_length (ts tempsL precipL : List Json) (n : Nat) :
    (windowSamples ts tempsL precipL n).length = n := by
  simp [windowSamples]

/-- The i-th window entry zips the i-th entries of the parallel arrays. -/
theorem windowSamples_jGet (ts tempsL precipL : List Json) (n i : Nat) (hi : i < n) :
    jGet (windowSamples ts tempsL precipL n) i
      = mkSample (jGet ts i) (jGet tempsL i) (jGet precipL i) := by
  simp [windowSamples, jGet, List.getElem?_map, List.getElem?_range, hi]

/-- The time field of a sample. -/
theorem getField_mkSample_time (a b c : Json) :
    getField (mkSample a b c) "time" = some a := rfl

/-- The temperature field of a sample. -/
theorem getField_mkSample_temp (a b c : Json) :
    getField (mkSample a b c) "temperature_c" = some b := rfl

/-- The precipitation field of a sample. -/
theorem getField_mkSample_precip (a b c : Json) :
    getField (mkSample a b c) "precipitation_probability" = some c := rfl

/-- C3: for every integer hours argument, fetch_weather_window behaves exactly
as if called with clamp(hours, 1, 24): values below 1 become 1, values above
24 become 24, in-range values pass unchanged, and no integer input is ever
rejected (the clamp always succeeds). -/
theorem fetch_hours_clamped :
    (∀ (city : Json) (h : Int) (geo fc : FetchOutcome),
       fetch_weather_window city (.num h) geo fc
         = fetch_weather_window city (.num (clampI h)) geo fc) ∧
    (∀ h : Int, h < 1 → clampI h = 1) ∧
    (∀ h : Int, 1 ≤ h → h ≤ 24 → clampI h = h) ∧
    (∀ h : Int, 24 < h → clampI h = 24) ∧
    (∀ h : Int, clampHours (.num h) = .ok (clampI h)) := by
  refine ⟨?_, ?_, ?_, ?_, fun h => rfl⟩
  · intro city h geo fc
    simp [fetch_weather_window, clampHours, clampI_idem]
  · intro h hh; unfold clampI; omega
  · intro h h1 h2; unfold clampI; omega
  · intro h hh; unfold clampI; omega

/-- Witness for C3 at hours values below, inside and above the range. -/
theorem fetch_hours_clamped_witness :
    clampI (-5) = 1 ∧ clampI 7 = 7 ∧ clampI 99 = 24 ∧
    fetch_weather_window (.str "X") (.num (-5)) (.exc "e") (.exc "e")
      = fetch_weather_window (.str "X") (.num (clampI (-5))) (.exc "e") (.exc "e") :=
  ⟨fetch_hours_clamped.2.1 (-5) (by decide),
   fetch_hours_clamped.2.2.1 7 (by decide) (by decide),
   fetch_hours_clamped.2.2.2.1 99 (by decide),
   fetch_hours_clamped.1 (.str "X") (-5) (.exc "e") (.exc "e")⟩

/-- C5: a successful geocoding call with zero matches yields exactly the
city/error mapping, with no coordinate or sample fields, and the result does
not depend on the forecast provider (no forecast call is made). -/
theorem fetch_no_geocoding_match (city : String) (h : Int)
    (gfs : List (String × Json)) (hres : gfs.lookup "results" = some (.arr []))
    (fc : FetchOutcome) :
    fetch_weather_window (.str city) (.num h) (.ok (.obj gfs)) fc
      = .ok (.obj [("city", .str city), ("error", .str "No geocoding match")]) := by
  simp [fetch_weather_window, clampHours, fetchClamped, Json.get, hres, truthy]

/-- Witness for C5: a concrete empty-results geocoding body. -/
theorem fetch_no_geocoding_match_witness :
    fetch_weather_window (.str "Atlantis") (.num 12)
        (.ok (.obj [("results", .arr [])])) (.exc "never used")
      = .ok (.obj [("city", .str "Atlantis"), ("error", .str "No geocoding match")]) :=
  fetch_no_geocoding_match "Atlantis" 12 [("results", .arr [])] rfl (.exc "never used")

/-- C6: any request whose name is not the weather tool's yields exactly the
unknown-tool error mapping, and the dispatcher returns normally. -/
theorem handle_unknown_tool (tc : ToolCall) (geo fc : FetchOutcome)
    (h : tc.name ≠ "fetch_weather_window") :
    handle_tool_call tc geo fc
      = .ok (.obj [("error", .str ("Unknown tool " ++ tc.name))]) := by
  simp [handle_tool_call, h]

/-- Witness for C6 at a concrete unrecognized name. -/
theorem handle_unknown_tool_witness :
    handle_tool_call ⟨"call_0", "get_time", .valid (.obj [])⟩ (.exc "e") (.exc "e")
      = .ok (.obj [("error", .str "Unknown tool get_time")]) :=
  handle_unknown_tool ⟨"call_0", "get_time", .valid (.obj [])⟩ (.exc "e") (.exc "e")
    (by decide)

/-- C4: when geocoding and forecast both succeed, the result is the first
min(clamped hours, timestamp count) entries of the parallel arrays zipped
positionally, window_hours is the number of samples actually produced, and a
sample's temperature or precipitation is null wherever the parallel array is
shorter than the timestamp array. -/
theorem fetch_windowing_success
    (city : Json) (h : Int)
    (gfs gs : List (String × Json)) (restM : List Json) (lat lon : Json)
    (hres : gfs.lookup "results" = some (.arr (Json.obj gs :: restM)))
    (hlat : gs.lookup "latitude" = some lat)
    (hlon : gs.lookup "longitude" = some lon)
    (dfs hs : List (String × Json)) (ts tempsL precipL : List Json)
    (hh : dfs.lookup "hourly" = some (.obj hs))
    (ht : hs.lookup "time" = some (.arr ts))
    (htemp : hs.lookup "temperature_2m" = some (.arr tempsL))
    (hprec : hs.lookup "precipitation_probability" = some (.arr precipL)) :
    fetch_weather_window city (.num h) (.ok (.obj gfs)) (.ok (.obj dfs))
      = .ok (.obj [("city", city), ("latitude", lat), ("longitude", lon),
          ("window_hours", .num ((windowSamples ts tempsL precipL
            (min (clampI h).toNat ts.length)).length)),
          ("samples", .arr (windowSamples ts tempsL precipL
            (min (clampI h).toNat ts.length)))]) ∧
    (windowSamples ts tempsL precipL (min (clampI h).toNat ts.length)).length
      = min (clampI h).toNat ts.length ∧
    (∀ i, i < min (clampI h).toNat ts.length →
       jGet (windowSamples ts tempsL precipL (min (clampI h).toNat ts.length)) i
         = mkSample (jGet ts i) (jGet tempsL i) (jGet precipL i)) ∧
    (∀ i, i < min (clampI h).toNat ts.length → tempsL.length ≤ i →
       getField (jGet (windowSamples ts tempsL precipL (min (clampI h).toNat ts.length)) i)
         "temperature_c" = some .null) ∧
    (∀ i, i < min (clampI h).toNat ts.length → precipL.length ≤ i →
       getField (jGet (windowSamples ts tempsL precipL (min (clampI h).toNat ts.length)) i)
         "precipitation_probability" = some .null) := by
  refine ⟨?_, windowSamples_length ts tempsL precipL _, ?_, ?_, ?_⟩
  · rw [windowSamples_length]
    push_cast
    exact fetch_success_shape city h gfs gs restM lat lon hres hlat hlon dfs hs
      ts tempsL precipL hh ht htemp hprec
  · intro i hi
    exact windowSamples_jGet ts tempsL precipL _ i hi
  · intro i hi hle
    rw [windowSamples_jGet ts tempsL precipL _ i hi, getField_mkSample_temp,
      jGet_default tempsL i hle]
  · intro i hi hle
    rw [windowSamples_jGet ts tempsL precipL _ i hi, getField_mkSample_precip,
      jGet_default precipL i hle]

/-- Witness for C4: five timestamps, three temperatures, five precipitation
values and five requested hours give five samples whose last two
temperatures are null. -/
theorem fetch_windowing_success_witness :
    fetch_weather_window (.str "Rome") (.num 5)
        (.ok (.obj [("results",
          .arr [.obj [("latitude", .num 41), ("longitude", .num 12)]])]))
        (.ok (.obj [("hourly", .obj
          [("time", .arr [.str "h0", .str "h1", .str "h2", .str "h3", .str "h4"]),
           ("temperature_2m", .arr [.num 10, .num 11, .num 12]),
           ("precipitation_probability",
             .arr [.num 1, .num 2, .num 3, .num 4, .num 5])])]))
      = .ok (.obj [("city", .str "Rome"), ("latitude", .num 41),
          ("longitude", .num 12), ("window_hours", .num 5),
          ("samples", .arr
            [mkSample (.str "h0") (.num 10) (.num 1),
             mkSample (.str "h1") (.num 11) (.num 2),
             mkSample (.str "h2") (.num 12) (.num 3),
             mkSample (.str "h3") .null (.num 4),
             mkSample (.str "h4") .null (.num 5)])]) := by
  exact (fetch_windowing_success (.str "Rome") 5
    [("results", .arr [.obj [("latitude", .num 41), ("longitude", .num 12)]])]
    [("latitude", .num 41), ("longitude", .num 12)] [] (.num 41) (.num 12)
    rfl rfl rfl
    [("hourly", .obj
      [("time", .arr [.str "h0", .str "h1", .str "h2", .str "h3", .str "h4"]),
       ("temperature_2m", .arr [.num 10, .num 11, .num 12]),
       ("precipitation_probability", .arr [.num 1, .num 2, .num 3, .num 4, .num 5])])]
    [("time", .arr [.str "h0", .str "h1", .str "h2", .str "h3", .str "h4"]),
     ("temperature_2m", .arr [.num 10, .num 11, .num 12]),
     ("precipitation_probability", .arr [.num 1, .num 2, .num 3, .num 4, .num 5])]
    [.str "h0", .str "h1", .str "h2", .str "h3", .str "h4"]
    [.num 10, .num 11, .num 12]
    [.num 1, .num 2, .num 3, .num 4, .num 5]
    rfl rfl rfl rfl).1

/-- C9 counterexample: a provider timestamp array containing null produces a
successful (error-free) result whose sample time field is null, refuting that
sample times are never null for every provider behavior. -/
theorem sample_time_null_possible :
    fetch_weather_window (.str "X") (.num 12)
        (.ok (.obj [("results",
          .arr [.obj [("latitude", .num 48), ("longitude", .num 2)]])]))
        (.ok (.obj [("hourly", .obj [("time", .arr [Json.null]),
          ("temperature_2m", .arr []), ("precipitation_probability", .arr [])])]))
      = .ok (.obj [("city", .str "X"), ("latitude", .num 48), ("longitude", .num 2),
          ("window_hours", .num 1), ("samples", .arr [mkSample .null .null .null])]) ∧
    getField (mkSample .null .null .null) "time" = some Json.null ∧
    getField (.obj [("city", .str "X"), ("latitude", .num 48), ("longitude", .num 2),
        ("window_hours", .num 1), ("samples", .arr [mkSample .null .null .null])])
      "error" = none :=
  ⟨rfl, rfl, rfl⟩

/-- C9 (amended): in a successful result each sample's time is the provider's
timestamp at that index, the sample count is bounded by the timestamp array
length, and sample times are non-null whenever the provider's timestamp
entries are non-null. -/
theorem sample_time_from_provider
    (city : Json) (h : Int)
    (gfs gs : List (String × Json)) (restM : List Json) (lat lon : Json)
    (hres : gfs.lookup "results" = some (.arr (Json.obj gs :: restM)))
    (hlat : gs.lookup "latitude" = some lat)
    (hlon : gs.lookup "longitude" = some lon)
    (dfs hs : List (String × Json)) (ts tempsL precipL : List Json)
    (hh : dfs.lookup "hourly" = some (.obj hs))
    (ht : hs.lookup "time" = some (.arr ts))
    (htemp : hs.lookup "temperature_2m" = some (.arr tempsL))
    (hprec : hs.lookup "precipitation_probability" = some (.arr precipL))
    (hnn : Json.null ∉ ts) :
    getField (okJson (fetch_weather_window city (.num h)
        (.ok (.obj gfs)) (.ok (.obj dfs)))) "samples"
      = some (.arr (windowSamples ts tempsL precipL (min (clampI h).toNat ts.length))) ∧
    (windowSamples ts tempsL precipL (min (clampI h).toNat ts.length)).length
      ≤ ts.length ∧
    (∀ i, i < (windowSamples ts tempsL precipL (min (clampI h).toNat ts.length)).length →
       getField (jGet (windowSamples ts tempsL precipL
           (min (clampI h).toNat ts.length)) i) "time" = some (jGet ts i) ∧
       jGet ts i ≠ Json.null) := by
  have hshape := fetch_success_shape city h gfs gs restM lat lon hres hlat hlon
    dfs hs ts tempsL precipL hh ht htemp hprec
  refine ⟨?_, ?_, ?_⟩
  · rw [hshape]; rfl
  · rw [windowSamples_length]; exact Nat.min_le_right _ _
  · intro i hi
    rw [windowSamples_length] at hi
    refine ⟨?_, ?_⟩
    · rw [windowSamples_jGet ts tempsL precipL _ i hi, getField_mkSample_time]
    · have hlt : i < ts.length := lt_of_lt_of_le hi (Nat.min_le_right _ _)
      intro heq
      exact hnn (heq ▸ jGet_mem ts i hlt)

/-- Witness for the amended C9 at a concrete successful lookup. -/
theorem sample_time_from_provider_witness :
    getField (okJson (fetch_weather_window (.str "Oslo") (.num 24)
        (.ok (.obj [("results",
          .arr [.obj [("latitude", .num 59), ("longitude", .num 10)]])]))
        (.ok (.obj [("hourly", .obj
          [("time", .arr [.str "a", .str "b", .str "c"]),
           ("temperature_2m", .arr [.num 1, .num 2]),
           ("precipitation_probability", .arr [])])])))) "samples"
      = some (.arr (windowSamples [.str "a", .str "b", .str "c"] [.num 1, .num 2] []
          (min (clampI 24).toNat 3))) ∧
    (windowSamples [.str "a", .str "b", .str "c"] [.num 1, .num 2] []
        (min (clampI 24).toNat 3)).length ≤ 3 ∧
    (∀ i, i < (windowSamples [.str "a", .str "b", .str "c"] [.num 1, .num 2] []
         (min (clampI 24).toNat 3)).length →
       getField (jGet (windowSamples [.str "a", .str "b", .str "c"] [.num 1, .num 2] []
           (min (clampI 24).toNat 3)) i) "time"
         = some (jGet [.str "a", .str "b", .str "c"] i) ∧
       jGet [.str "a", .str "b", .str "c"] i ≠ Json.null) := by
  exact sample_time_from_provider (.str "Oslo") 24
    [("results", .arr [.obj [("latitude", .num 59), ("longitude", .num 10)]])]
    [("latitude", .num 59), ("longitude", .num 10)] [] (.num 59) (.num 10)
    rfl rfl rfl
    [("hourly", .obj [("time", .arr [.str "a", .str "b", .str "c"]),
      ("temperature_2m", .arr [.num 1, .num 2]),
      ("precipitation_probability", .arr [])])]
    [("time", .arr [.str "a", .str "b", .str "c"]),
     ("temperature_2m", .arr [.num 1, .num 2]),
     ("precipitation_probability", .arr [])]
    [.str "a", .str "b", .str "c"] [.num 1, .num 2] []
    rfl rfl rfl rfl (by simp)

/-- The clamp accepts exactly the int-like hours values. -/
theorem clampHours_intLike (j : Json) (hj : intLike j = true) :
    clampHours j = .ok (clampOf j) := by
  cases j <;> simp_all [clampHours, clampOf, intLike]

/-- A present-or-absent object member defaults into its field list. -/
theorem getD_objOf (o : Option Json) (hwf : isObjOpt o = true) :
    o.getD (.obj []) = .obj (objOf o) := by
  cases o with
  | none => rfl
  | some v => cases v <;> simp_all [isObjOpt, objOf]

/-- A present-or-absent array member defaults into its element list. -/
theorem getD_arrOf (o : Option Json) (hwf : isArrOpt o = true) :
    o.getD (.arr []) = .arr (arrOf o) := by
  cases o with
  | none => rfl
  | some v => cases v <;> simp_all [isArrOpt, arrOf]

/-- Geocoding success with an empty results array leads to the no-match
result, whatever the forecast provider would do. -/
theorem fetchClamped_no_match (city : Json) (hoursI : Int)
    (gfs : List (String × Json)) (hres : gfs.lookup "results" = some (.arr []))
    (fc : FetchOutcome) :
    fetchClamped city hoursI (.ok (.obj gfs)) fc
      = .ok (.obj [("city", city), ("error", .str "No geocoding match")]) := by
  simp [fetchClamped, Json.get, hres, truthy]

/-- Geocoding success with absent results leads to the no-match result. -/
theorem fetchClamped_no_results_key (city : Json) (hoursI : Int)
    (gfs : List (String × Json)) (hres : gfs.lookup "results" = none)
    (fc : FetchOutcome) :
    fetchClamped city hoursI (.ok (.obj gfs)) fc
      = .ok (.obj [("city", city), ("error", .str "No geocoding match")]) := by
  simp [fetchClamped, Json.get, hres, truthy]

/-- A forecast request failure after a successful geocoding match is captured
into the error field. -/
theorem fetchClamped_fc_exc (city : Json) (hoursI : Int)
    (gfs gs : List (String × Json)) (restM : List Json) (lat lon : Json)
    (hres : gfs.lookup "results" = some (.arr (Json.obj gs :: restM)))
    (hlat : gs.lookup "latitude" = some lat)
    (hlon : gs.lookup "longitude" = some lon) (msg : String) :
    fetchClamped city hoursI (.ok (.obj gfs)) (.exc msg)
      = .ok (.obj [("city", city),
          ("error", .str ("Forecast fetch failed: " ++ msg))]) := by
  simp [fetchClamped, Json.get, Json.getItemS, Json.getIdx, hres, hlat, hlon, truthy]

/-- A successful forecast with structurally well-formed body windows into the
sample result, where the hourly series default to empty when absent. -/
theorem fetchClamped_fc_wf (city : Json) (hoursI : Int)
    (gfs gs : List (String × Json)) (restM : List Json) (lat lon : Json)
    (hres : gfs.lookup "results" = some (.arr (Json.obj gs :: restM)))
    (hlat : gs.lookup "latitude" = some lat)
    (hlon : gs.lookup "longitude" = some lon)
    (dfs : List (String × Json)) (hwf : wfFcBody (.obj dfs) = true) :
    fetchClamped city hoursI (.ok (.obj gfs)) (.ok (.obj dfs))
      = .ok (.obj [("city", city), ("latitude", lat), ("longitude", lon),
          ("window_hours", .num ((windowSamples
            (arrOf ((objOf (dfs.lookup "hourly")).lookup "time"))
            (arrOf ((objOf (dfs.lookup "hourly")).lookup "temperature_2m"))
            (arrOf ((objOf (dfs.lookup "hourly")).lookup "precipitation_probability"))
            (min hoursI.toNat
              (arrOf ((objOf (dfs.lookup "hourly")).lookup "time")).length)).length)),
          ("samples", .arr (windowSamples
            (arrOf ((objOf (dfs.lookup "hourly")).lookup "time"))
            (arrOf ((objOf (dfs.lookup "hourly")).lookup "temperature_2m"))
            (arrOf ((objOf (dfs.lookup "hourly")).lookup "precipitation_probability"))
            (min hoursI.toNat
              (arrOf ((objOf (dfs.lookup "hourly")).lookup "time")).length)))]) := by
  have hwf' := hwf
  simp only [wfFcBody, Bool.and_eq_true] at hwf'
  obtain ⟨hObj, ⟨hTime, hTemp⟩, hPrec⟩ := hwf'
  have hrange : ∀ i ∈ List.range (min hoursI.toNat
      (arrOf ((objOf (dfs.lookup "hourly")).lookup "time")).length),
      i < (arrOf ((objOf (dfs.lookup "hourly")).lookup "time")).length := by
    intro i hi
    have := List.mem_range.mp hi
    omega
  simp [fetchClamped, Json.get, Json.getItemS, Json.getIdx, hres, hlat, hlon, truthy,
    getD_objOf _ hObj, getD_arrOf _ hTime, getD_arrOf _ hTemp, getD_arrOf _ hPrec,
    pyLen, buildSamples_eq _ _ _ _ hrange, windowSamples]

/-- Under well-formed provider behaviors the clamped pipeline always returns
a result object. -/
theorem fetchClamped_wf_ok (city : Json) (hoursI : Int) (geo fc : FetchOutcome)
    (hg : wfGeo geo = true) (hf : wfFc fc = true) :
    ∃ fs, fetchClamped city hoursI geo fc = .ok (.obj fs) := by
  rcases geo with msg | gb
  · exact ⟨_, rfl⟩
  rcases gb with _ | b | n | s | elems | gfs
  · simp [wfGeo, wfGeoBody] at hg
  · simp [wfGeo, wfGeoBody] at hg
  · simp [wfGeo, wfGeoBody] at hg
  · simp [wfGeo, wfGeoBody] at hg
  · simp [wfGeo, wfGeoBody] at hg
  have hg' : wfGeoBody (.obj gfs) = true := hg
  simp only [wfGeoBody] at hg'
  cases hres : gfs.lookup "results" with
  | none => exact ⟨_, fetchClamped_no_results_key city hoursI gfs hres fc⟩
  | some v =>
    rw [hres] at hg'
    rcases v with _ | b | n | s | elems | o
    · simp at hg'
    · simp at hg'
    · simp at hg'
    · simp at hg'
    · rcases elems with _ | ⟨first, restM⟩
      · exact ⟨_, fetchClamped_no_match city hoursI gfs hres fc⟩
      rcases first with _ | b | n | s | es | gs
      · simp at hg'
      · simp at hg'
      · simp at hg'
      · simp at hg'
      · simp at hg'
      simp only [Bool.and_eq_true] at hg'
      obtain ⟨hlat', hlon'⟩ := hg'
      obtain ⟨lat, hlat⟩ := Option.isSome_iff_exists.mp hlat'
      obtain ⟨lon, hlon⟩ := Option.isSome_iff_exists.mp hlon'
      rcases fc with msg | db
      · exact ⟨_, fetchClamped_fc_exc city hoursI gfs gs restM lat lon hres hlat hlon msg⟩
      rcases db with _ | b | n | s | es | dfs
      · simp [wfFc, wfFcBody] at hf
      · simp [wfFc, wfFcBody] at hf
      · simp [wfFc, wfFcBody] at hf
      · simp [wfFc, wfFcBody] at hf
      · simp [wfFc, wfFcBody] at hf
      exact ⟨_, fetchClamped_fc_wf city hoursI gfs gs restM lat lon hres hlat hlon dfs hf⟩
    · simp at hg'

/-- C1 counterexample: a geocoding success whose best match lacks the
latitude key makes fetch_weather_window raise KeyError to its caller, so the
operation does not capture every provider behavior into the error field. -/
theorem fetch_raises_on_missing_latitude :
    fetch_weather_window (.str "Paris") (.num 12)
        (.ok (.obj [("results", .arr [.obj [("longitude", .num 2)]])]))
        (.exc "unused")
      = .error PyErr.keyError := rfl

/-- C1 (amended): for every city string, integer hours and structurally
well-formed behavior of the two providers, fetch_weather_window returns a
result object and never raises; request failures of either provider and the
zero-match case are captured into the error field. -/
theorem fetch_no_raise_of_wellformed (city : String) (h : Int)
    (geo fc : FetchOutcome) (hg : wfGeo geo = true) (hf : wfFc fc = true) :
    (∃ fs, fetch_weather_window (.str city) (.num h) geo fc = .ok (.obj fs)) ∧
    (∀ msg, geo = .exc msg →
       fetch_weather_window (.str city) (.num h) geo fc
         = .ok (.obj [("city", .str city),
             ("error", .str ("Geocoding failed: " ++ msg))])) ∧
    (∀ gfs, geo = .ok (.obj gfs) → gfs.lookup "results" = some (.arr []) →
       fetch_weather_window (.str city) (.num h) geo fc
         = .ok (.obj [("city", .str city), ("error", .str "No geocoding match")])) ∧
    (∀ gfs gs restM lat lon msg, geo = .ok (.obj gfs) →
       gfs.lookup "results" = some (.arr (Json.obj gs :: restM)) →
       gs.lookup "latitude" = some lat → gs.lookup "longitude" = some lon →
       fc = .exc msg →
       fetch_weather_window (.str city) (.num h) geo fc
         = .ok (.obj [("city", .str city),
             ("error", .str ("Forecast fetch failed: " ++ msg))])) := by
  refine ⟨?_, ?_, ?_, ?_⟩
  · have hok := fetchClamped_wf_ok (.str city) (clampI h) geo fc hg hf
    simpa [fetch_weather_window, clampHours] using hok
  · rintro msg rfl
    rfl
  · rintro gfs rfl hres
    have := fetchClamped_no_match (.str city) (clampI h) gfs hres fc
    simpa [fetch_weather_window, clampHours] using this
  · rintro gfs gs restM lat lon msg rfl hres hlat hlon rfl
    have := fetchClamped_fc_exc (.str city) (clampI h) gfs gs restM lat lon hres hlat hlon msg
    simpa [fetch_weather_window, clampHours] using this

/-- Witness for the amended C1 at concrete provider failures. -/
theorem fetch_no_raise_of_wellformed_witness :
    wfGeo (.exc "boom") = true ∧ wfFc (.exc "boom") = true ∧
    (∃ fs, fetch_weather_window (.str "Lyon") (.num 6) (.exc "boom") (.exc "boom")
       = .ok (.obj fs)) :=
  ⟨rfl, rfl,
   (fetch_no_raise_of_wellformed "Lyon" 6 (.exc "boom") (.exc "boom") rfl rfl).1⟩

/-- C2 counterexample: arguments that fail to decode as JSON are indeed
treated as an empty argument set, but the weather-tool call then raises
TypeError for the missing required city parameter, so handle_tool_call does
throw and the turn is aborted. -/
theorem handle_tool_call_raises_on_undecodable_args :
    parse_arguments (.invalid "oops") = .obj [] ∧
    handle_tool_call ⟨"call_1", "fetch_weather_window", .invalid "oops"⟩
        (.exc "x") (.exc "x") = .error PyErr.typeError :=
  ⟨rfl, rfl⟩

/-- C2 (amended): handle_tool_call returns a result object and never throws
provided that, when the request names the weather tool, the decoded
arguments form a mapping of the declared parameters including city (with an
int-like hours) and the providers behave well-formedly; undecodable
arguments are always treated as the empty argument set. -/
theorem handle_tool_call_total_of_wf_args (tc : ToolCall) (geo fc : FetchOutcome)
    (hg : wfGeo geo = true) (hf : wfFc fc = true)
    (hargs : tc.name = "fetch_weather_window" →
      wfArgs (parse_arguments tc.arguments) = true) :
    (∃ fs, handle_tool_call tc geo fc = .ok (.obj fs)) ∧
    (∀ raw, parse_arguments (.invalid raw) = .obj []) := by
  refine ⟨?_, fun raw => rfl⟩
  by_cases hname : tc.name = "fetch_weather_window"
  · have hw := hargs hname
    cases hp : parse_arguments tc.arguments with
    | obj fields =>
      rw [hp] at hw
      simp only [wfArgs, Bool.and_eq_true] at hw
      obtain ⟨hkeys, hcity, hhours⟩ := hw
      obtain ⟨cityv, hcv⟩ := Option.isSome_iff_exists.mp hcity
      have hint : intLike ((fields.lookup "hours").getD (.num 12)) = true := by
        cases hh' : fields.lookup "hours" with
        | none => rfl
        | some hv =>
          rw [hh'] at hhours
          simpa using hhours
      have hfetch : ∃ fs, fetch_weather_window cityv
          ((fields.lookup "hours").getD (.num 12)) geo fc = .ok (.obj fs) := by
        have hclamp := clampHours_intLike _ hint
        have hok := fetchClamped_wf_ok cityv
          (clampOf ((fields.lookup "hours").getD (.num 12))) geo fc hg hf
        simpa [fetch_weather_window, hclamp] using hok
      obtain ⟨fs, hfs⟩ := hfetch
      refine ⟨fs, ?_⟩
      simp [handle_tool_call, hname, hp, callFetchWeather, hkeys, hcv, hfs]
    | null => rw [hp] at hw; simp [wfArgs] at hw
    | bool b => rw [hp] at hw; simp [wfArgs] at hw
    | num n => rw [hp] at hw; simp [wfArgs] at hw
    | str s => rw [hp] at hw; simp [wfArgs] at hw
    | arr elems => rw [hp] at hw; simp [wfArgs] at hw
  · exact ⟨[("error", .str ("Unknown tool " ++ tc.name))],
      by simp [handle_tool_call, hname]⟩

/-- Witness for the amended C2 at a concrete well-formed weather request. -/
theorem handle_tool_call_total_of_wf_args_witness :
    wfGeo (.exc "down") = true ∧ wfFc (.exc "down") = true ∧
    wfArgs (parse_arguments
      (.valid (.obj [("city", .str "Hue"), ("hours", .num 3)]))) = true ∧
    (∃ fs, handle_tool_call ⟨"c1", "fetch_weather_window",
        .valid (.obj [("city", .str "Hue"), ("hours", .num 3)])⟩
        (.exc "down") (.exc "down") = .ok (.obj fs)) :=
  ⟨rfl, rfl, rfl,
   (handle_tool_call_total_of_wf_args
     ⟨"c1", "fetch_weather_window",
       .valid (.obj [("city", .str "Hue"), ("hours", .num 3)])⟩
     (.exc "down") (.exc "down") rfl rfl (fun _ => rfl)).1⟩

/-- The placeholder contains no surrounding whitespace. -/
theorem pyStrip_placeholder : pyStrip placeholderText = placeholderText := by decide

/-- Scanning a concatenation splits into scanning the parts, threading the
pending-request ids. -/
theorem toolIdsOkFrom_append (p : List String) (xs ys : List Msg) :
    toolIdsOkFrom p (xs ++ ys)
      = (toolIdsOkFrom p xs && toolIdsOkFrom (pendingAfter p xs) ys) := by
  induction xs generalizing p with
  | nil => simp [toolIdsOkFrom, pendingAfter]
  | cons m xs ih => cases m <;> simp [toolIdsOkFrom, pendingAfter, ih, Bool.and_assoc]

/-- Tool messages whose ids all come from the pending batch pass the scan. -/
theorem toolIdsOkFrom_toolMsgs (p : List String) (geo fc : FetchOutcome)
    (l : List ToolCall) (hsub : ∀ tc ∈ l, tc.id ∈ p) :
    toolIdsOkFrom p (l.map (toolMsgOf geo fc)) = true := by
  induction l with
  | nil => rfl
  | cons tc l ih =>
    have h1 : tc.id ∈ p := hsub tc (List.mem_cons_self tc l)
    simp [toolMsgOf, toolIdsOkFrom, h1,
      ih (fun x hx => hsub x (List.mem_cons_of_mem _ hx))]

/-- The dispatch loop answers a prefix of the batch, one tool message per
answered request, in request order. -/
theorem processCalls_prefix (geo fc : FetchOutcome) (calls : List ToolCall) :
    ∃ k, (processCalls geo fc calls).1 = (calls.take k).map (toolMsgOf geo fc) := by
  induction calls with
  | nil => exact ⟨0, rfl⟩
  | cons tc rest ih =>
    cases hcall : handle_tool_call tc geo fc with
    | error e => exact ⟨0, by simp [processCalls, hcall]⟩
    | ok r =>
      obtain ⟨k, hk⟩ := ih
      exact ⟨k + 1, by simp [processCalls, hcall, hk, toolMsgOf, okJson]⟩

/-- When every dispatch in the batch succeeds, the loop answers every request
in order and reports no exception. -/
theorem processCalls_ok (geo fc : FetchOutcome) (calls : List ToolCall)
    (hok : ∀ tc ∈ calls, (handle_tool_call tc geo fc).isOk = true) :
    processCalls geo fc calls = (calls.map (toolMsgOf geo fc), none) := by
  induction calls with
  | nil => rfl
  | cons tc rest ih =>
    have h1 := hok tc (List.mem_cons_self tc rest)
    cases hcall : handle_tool_call tc geo fc with
    | error e => rw [hcall] at h1; simp [Except.isOk, Except.toBool] at h1
    | ok r =>
      simp [processCalls, hcall, toolMsgOf, okJson,
        ih (fun x hx => hok x (List.mem_cons_of_mem _ hx))]

/-- Appending an assistant batch message followed by tool answers drawn from
that batch preserves the correlation invariant. -/
theorem toolIdsOk_extend_batch (msgs : List Msg) (content : Json)
    (calls : List ToolCall) (geo fc : FetchOutcome) (k : Nat)
    (hm : toolIdsOk msgs = true) :
    toolIdsOk (msgs ++ Msg.assistantToolCalls content calls
      :: (calls.take k).map (toolMsgOf geo fc)) = true := by
  rw [toolIdsOk, toolIdsOkFrom_append]
  simp only [Bool.and_eq_true]
  refine ⟨hm, ?_⟩
  simp only [toolIdsOkFrom]
  exact toolIdsOkFrom_toolMsgs _ geo fc _
    (fun tc htc => List.mem_map_of_mem ToolCall.id (List.mem_of_mem_take htc))

/-- The reply loop only ever appends to the transcript it was given. -/
theorem runReplies_prefix (geo fc : FetchOutcome) (script : List Reply) :
    ∀ msgs, ∃ tail, (runReplies geo fc msgs script).1 = msgs ++ tail := by
  induction script with
  | nil => intro msgs; exact ⟨[], by simp [runReplies]⟩
  | cons reply rest ih =>
    intro msgs
    by_cases hc : reply.tool_calls.isEmpty
    · cases hext : extract_text reply.content with
      | error e => exact ⟨[], by simp [runReplies, hc, hext]⟩
      | ok t => exact ⟨[Msg.assistant t], by simp [runReplies, hc, hext]⟩
    · cases hstep : (processCalls geo fc reply.tool_calls).2 with
      | some e =>
        exact ⟨Msg.assistantToolCalls reply.content reply.tool_calls
            :: (processCalls geo fc reply.tool_calls).1,
          by simp [runReplies, hc, hstep]⟩
      | none =>
        obtain ⟨tail, htail⟩ := ih
          (msgs ++ Msg.assistantToolCalls reply.content reply.tool_calls
            :: (processCalls geo fc reply.tool_calls).1)
        exact ⟨Msg.assistantToolCalls reply.content reply.tool_calls
            :: ((processCalls geo fc reply.tool_calls).1 ++ tail),
          by simp [runReplies, hc, hstep, htail]⟩

/-- The reply loop preserves the correlation invariant through every round,
including rounds that end in a crash or an exhausted script. -/
theorem runReplies_invariant (geo fc : FetchOutcome) (script : List Reply) :
    ∀ msgs, toolIdsOk msgs = true → toolIdsOk (runReplies geo fc msgs script).1 = true := by
  induction script with
  | nil => intro msgs hm; exact hm
  | cons reply rest ih =>
    intro msgs hm
    by_cases hc : reply.tool_calls.isEmpty
    · cases hext : extract_text reply.content with
      | error e => simpa [runReplies, hc, hext] using hm
      | ok t =>
        have hstep : toolIdsOk (msgs ++ [Msg.assistant t]) = true := by
          rw [toolIdsOk, toolIdsOkFrom_append]
          simp only [Bool.and_eq_true]
          exact ⟨hm, rfl⟩
        simpa [runReplies, hc, hext] using hstep
    · obtain ⟨k, hk⟩ := processCalls_prefix geo fc reply.tool_calls
      have hbatch : toolIdsOk (msgs ++ Msg.assistantToolCalls reply.content
          reply.tool_calls :: (processCalls geo fc reply.tool_calls).1) = true := by
        rw [hk]
        exact toolIdsOk_extend_batch msgs reply.content reply.tool_calls geo fc k hm
      cases hstep : (processCalls geo fc reply.tool_calls).2 with
      | some e => simpa [runReplies, hc, hstep] using hbatch
      | none =>
        have hrec := ih
          (msgs ++ Msg.assistantToolCalls reply.content reply.tool_calls
            :: (processCalls geo fc reply.tool_calls).1) hbatch
        simpa [runReplies, hc, hstep] using hrec

/-- C7 counterexample: a turn whose single tool request carries undecodable
arguments for the weather tool crashes mid-dispatch, so the claimed sequence
(user, assistant, one tool result per request, narrative) is never appended
and the scripted narrative reply is never consumed. -/
theorem turn_crashes_on_bad_tool_args :
    processTurn (.exc "x") (.exc "x") [] "hi"
        [⟨.null, [⟨"call_9", "fetch_weather_window", .invalid "zz"⟩]⟩,
         ⟨.str "done", []⟩]
      = ([Msg.user "hi",
          Msg.assistantToolCalls .null
            [⟨"call_9", "fetch_weather_window", .invalid "zz"⟩]],
         .crashed .typeError) ∧
    (processTurn (.exc "x") (.exc "x") [] "hi"
        [⟨.null, [⟨"call_9", "fetch_weather_window", .invalid "zz"⟩]⟩,
         ⟨.str "done", []⟩]).2
      ≠ .finished (print_response_lines "done") :=
  ⟨rfl, fun hcontra => TurnResult.noConfusion hcontra⟩

/-- C7 (amended): the correlation invariant — every tool message answers a
request of the assistant message that opened its batch — holds after every
step of the loop, including crashes and partially answered batches; and a
turn consisting of one tool-call reply whose dispatches all return, followed
by a plain-text reply, appends the user message, the assistant message with
its requests preserved, one tool result per request in request order (each
carrying its request's id), then the narrative message. -/
theorem transcript_invariant_and_order :
    (∀ (geo fc : FetchOutcome) (msgs : List Msg) (script : List Reply),
       toolIdsOk msgs = true → toolIdsOk (runReplies geo fc msgs script).1 = true) ∧
    (∀ (geo fc : FetchOutcome) (msgs : List Msg) (content : Json)
       (calls : List ToolCall) (k : Nat),
       toolIdsOk msgs = true →
       toolIdsOk (msgs ++ Msg.assistantToolCalls content calls
         :: ((processCalls geo fc calls).1.take k)) = true) ∧
    (∀ (geo fc : FetchOutcome) (msgs : List Msg) (userText : String)
       (content content2 : Json) (calls : List ToolCall) (t : String)
       (rest : List Reply),
       calls ≠ [] →
       (∀ tc ∈ calls, (handle_tool_call tc geo fc).isOk = true) →
       extract_text content2 = .ok t →
       processTurn geo fc msgs userText (⟨content, calls⟩ :: ⟨content2, []⟩ :: rest)
         = (msgs ++ Msg.user userText :: Msg.assistantToolCalls content calls
             :: (calls.map (toolMsgOf geo fc) ++ [Msg.assistant t]),
            .finished (print_response_lines (pyOrStr (pyStrip t) placeholderText)))) := by
  refine ⟨?_, ?_, ?_⟩
  · intro geo fc msgs script hm
    exact runReplies_invariant geo fc script msgs hm
  · intro geo fc msgs content calls k hm
    obtain ⟨j, hj⟩ := processCalls_prefix geo fc calls
    rw [hj, ← List.map_take, List.take_take]
    exact toolIdsOk_extend_batch msgs content calls geo fc (min k j) hm
  · intro geo fc msgs userText content content2 calls t rest hne hok hext
    have hcalls : calls.isEmpty = false := by
      cases calls with
      | nil => exact absurd rfl hne
      | cons a l => rfl
    have hpc := processCalls_ok geo fc calls hok
    simp [processTurn, runReplies, hcalls, hpc, hext]

/-- Witness for the amended C7: one unknown-tool request followed by a
narrative reply appends the four messages in order. -/
theorem transcript_invariant_and_order_witness :
    processTurn (.exc "net down") (.exc "net down") [] "plan Hanoi"
        [⟨.null, [⟨"call_1", "nope_tool", .valid .null⟩]⟩, ⟨.str "done", []⟩]
      = ([] ++ Msg.user "plan Hanoi"
          :: Msg.assistantToolCalls .null [⟨"call_1", "nope_tool", .valid .null⟩]
          :: ([⟨"call_1", "nope_tool", .valid .null⟩].map
               (toolMsgOf (.exc "net down") (.exc "net down"))
             ++ [Msg.assistant "done"]),
         .finished (print_response_lines (pyOrStr (pyStrip "done") placeholderText))) :=
  transcript_invariant_and_order.2.2 (.exc "net down") (.exc "net down") []
    "plan Hanoi" .null (.str "done") [⟨"call_1", "nope_tool", .valid .null⟩]
    "done" [] (by simp)
    (by
      intro tc htc
      simp only [List.mem_singleton] at htc
      subst htc
      rfl)
    rfl

/-- C8: a reply with no tool calls whose extracted text is blank after
stripping prints the placeholder framed by the divider, while the transcript
receives the original extracted text, which is never the placeholder. -/
theorem placeholder_display_only (geo fc : FetchOutcome) (msgs : List Msg)
    (content : Json) (rest : List Reply) (t : String)
    (hext : extract_text content = .ok t) (hblank : pyStrip t = "") :
    runReplies geo fc msgs (⟨content, []⟩ :: rest)
      = (msgs ++ [Msg.assistant t],
         .finished [divider, placeholderText, divider]) ∧
    t ≠ placeholderText := by
  constructor
  · simp [runReplies, hext, hblank, pyOrStr, print_response_lines, pyStrip_placeholder]
  · intro heq
    rw [heq, pyStrip_placeholder] at hblank
    exact absurd hblank (by decide)

/-- Witness for C8 at a whitespace-only extracted text. -/
theorem placeholder_display_only_witness :
    runReplies (.exc "e") (.exc "e") [] [⟨.str "  ", []⟩]
      = ([Msg.assistant "  "], .finished [divider, placeholderText, divider]) ∧
    "  " ≠ placeholderText :=
  placeholder_display_only (.exc "e") (.exc "e") [] (.str "  ") [] "  " rfl
    (by decide)

/-- C10: every input line is stripped before processing — a whitespace-only
line is ignored, commands with surrounding whitespace (and any casing) still
match, a chat turn's text is exactly the stripped line, and the user message
appended to the transcript carries the stripped text. -/
theorem input_stripping :
    (∀ raw, pyStrip raw = "" → handleInputLine raw = .ignore) ∧
    (∀ raw, pyLower (pyStrip raw) = "/exit" ∨ pyLower (pyStrip raw) = "/quit" →
       handleInputLine raw = .exit) ∧
    handleInputLine "  /exit " = .exit ∧
    (∀ raw t, handleInputLine raw = .chat t → t = pyStrip raw) ∧
    (∀ raw t (geo fc : FetchOutcome) (msgs : List Msg) (script : List Reply),
       handleInputLine raw = .chat t →
       ∃ tail, (processTurn geo fc msgs t script).1
         = msgs ++ Msg.user (pyStrip raw) :: tail) := by
  have hchat : ∀ raw t, handleInputLine raw = .chat t → t = pyStrip raw := by
    intro raw t h
    by_cases h0 : pyStrip raw = ""
    · simp [handleInputLine, h0] at h
    · simp only [handleInputLine, h0, if_false] at h
      split_ifs at h
      all_goals cases h
      all_goals rfl
  refine ⟨?_, ?_, by decide, hchat, ?_⟩
  · intro raw h
    simp [handleInputLine, h]
  · intro raw h
    have hne : pyStrip raw ≠ "" := by
      intro h0
      rcases h with h1 | h1 <;> rw [h0] at h1 <;> exact absurd h1 (by decide)
    rcases h with h1 | h1 <;> simp [handleInputLine, hne, h1]
  · intro raw t geo fc msgs script h
    obtain ⟨tail, htail⟩ := runReplies_prefix geo fc script (msgs ++ [Msg.user t])
    refine ⟨tail, ?_⟩
    rw [processTurn, htail, hchat raw t h]
    simp

/-- Witness for C10: a blank line, a padded upper-case command, and a padded
chat line. -/
theorem input_stripping_witness :
    handleInputLine "   " = .ignore ∧
    handleInputLine " /QUIT " = .exit ∧
    handleInputLine "  hello there " = .chat "hello there" ∧
    "hello there" = pyStrip "  hello there " ∧
    (∃ tail, (processTurn (.exc "e") (.exc "e") [] "hello there" []).1
      = [] ++ Msg.user (pyStrip "  hello there ") :: tail) :=
  ⟨input_stripping.1 "   " (by decide),
   input_stripping.2.1 " /QUIT " (Or.inr (by decide)),
   by decide,
   input_stripping.2.2.2.1 "  hello there " "hello there" (by decide),
   input_stripping.2.2.2.2 "  hello there " "hello there" (.exc "e") (.exc "e") [] []
     (by decide)⟩
